import Mathlib

/-!
Shallow embedding of the repasse_medico RPA workflow engine
(src/processamento.py, src/comandos.py) and proofs about it.

Conventions of the embedding:
* Database values that Python holds as possibly-None column values are
  `Option String`; Python truthiness of such a value is `truthy` below
  (None and the empty string are falsy).
* Key columns (`nr_repasse`, `seq_terceiro`) are `Nat`.
* Browser calls are recorded as symbolic `Acao` values; each concrete
  CSS/XPath selector of the source is represented by one constructor of
  `Sel`.  An environment record supplies the outcome of each browser
  call; an outcome of `none` models that call raising an unexpected
  exception (Selenium flakiness), `some v` models it returning `v`.
* `time.sleep` (`aguardar`) never raises; durations are carried in
  tenths of a second (0.5 s = 5).
-/

namespace RepasseMedico

/-- Python truthiness of an optional string column value:
`None` and `""` are falsy, everything else truthy. -/
def truthy : Option String → Bool
  | none => false
  | some s => !(s == "")

/-- Python `str()` rendering of an optional column value, as used by the
f-string status messages (`str(None) = "None"`). -/
def pyStr : Option String → String
  | none => "None"
  | some s => s

/-- Symbolic names for the hard-coded selectors of src/processamento.py.
Each constructor stands for one literal selector string of the source. -/
inductive Sel where
  | loginUsername          -- id "loginUsername" (line 228)
  | loginPassword          -- id "loginPassword" (line 232)
  | botaoLogin             -- css "#loginForm > input.btn-green..." (line 234)
  | dialogoAposLogin       -- xpath ngdialog-content button (lines 237/244)
  | popupTasyNative        -- xpath TasyNative Fechar (line 246)
  | popupNgdialog2         -- css #ngdialog2 ... (line 248)
  | popupAgoraNao          -- xpath button Agora nao (line 250)
  | popupComunicacao       -- xpath Comunicacao Interna (line 252)
  | popupAdministracao     -- xpath Administracao do Sistema (line 254)
  | campoPesquisaMenu      -- xpath input ng-model search (line 266)
  | itemMenuTela           -- xpath span with screen name (line 273)
  | rotuloFiltro           -- xpath token-filter-container tasy-wlabel (line 365)
  | modalFiltro            -- xpath filter-modal-content (line 370)
  | inputSeqTerceiro       -- xpath input NR_SEQ_TERCEIRO (line 372)
  | nomeTerceiro           -- xpath tasy-wtextboxlocator description (line 381)
  | botaoFiltrar           -- xpath button Filtrar (line 398)
  | linhaGrid (seq : Nat)  -- xpath slick-row containing seq_terceiro (line 402)
  | painelRepasse          -- xpath wdbpanel-container Repasse terceiros (line 414)
  | celulaRepasse (nr : Nat) -- xpath datagrid cell containing nr_repasse (line 417)
  | botaoEnviarEmail       -- xpath span Enviar E-mail (line 422)
  | dialogoEmailDestino    -- xpath ngdialog-content Email destino (line 425)
  | inputEmailDestino      -- xpath input DS_EMAIL_DESTINO (lines 429/432)
  | botaoEnviar            -- xpath button Enviar (line 435)
  | dialogoAbortado        -- xpath ngdialog-content Operacao abortada (line 438)
  | textoDialogoAbortado   -- xpath dialog-content of the abort dialog (line 441)
  | botaoOK                -- xpath ngdialog-content button OK (line 443)
  deriving Repr, DecidableEq

/-- A browser interaction performed through the `WebController` wrapper
(the `BrowserProtocol` surface used by src/processamento.py). -/
inductive Acao where
  | navegar                          -- navegar(url)
  | aguardarVisivel (s : Sel)        -- aguardar_elemento_visivel
  | definirValor (s : Sel) (texto : String) -- definir_valor
  | click (s : Sel)                  -- click_elemento
  | obterTexto (s : Sel)             -- obter_texto
  | executarJavascript               -- executar_javascript (blur)
  | aguardar (decimosDeSegundo : Nat) -- aguardar(seconds)
  deriving Repr, DecidableEq

/-- One `registrar_log` call: log level and message (the optional record
key argument is omitted from the model; it never influences control
flow). -/
structure LogReg where
  tipo : String
  mensagem : String
  deriving Repr, DecidableEq

/-- A row of the staging table HOS_REPASSE_MEDICO (the TransferRecord of
the spec), as selected by `executar` and written by the import.  Column
order follows the INSERT of `bd_importar_contas`. -/
structure Registro where
  cnpj : Option String
  razao_social : Option String
  seq_terceiro : Nat
  nr_repasse : Nat
  nr_titulo : Option String
  dt_lib_titulo : Option String
  email : Option String
  dt_ult_envio_email : Option String
  status : String
  dt_lib_repasse : Option String
  cd_estabelecimento : Option String
  mensagem : Option String
  deriving Repr, DecidableEq

/-- A row of the source view TASY.RPA_EMAIL_REPASSE_V as fetched by the
SELECT of `bd_importar_contas` (no status/mensagem columns). -/
structure Fonte where
  cnpj : Option String
  razao_social : Option String
  seq_terceiro : Nat
  nr_repasse : Nat
  nr_titulo : Option String
  dt_lib_titulo : Option String
  email : Option String
  dt_ult_envio_email : Option String
  dt_lib_repasse : Option String
  cd_estabelecimento : Option String
  deriving Repr, DecidableEq

/-- The existence check `SELECT 1 FROM hos_repasse_medico WHERE
nr_repasse = :1` (line 304): does the staging table already hold the
transfer number? -/
def existeRepasse (tabela : List Registro) (nr : Nat) : Bool :=
  tabela.any (fun r => r.nr_repasse == nr)

/-- The INSERT of `bd_importar_contas` (lines 309-314): a new staging row
with initial status `"P"` and no message. -/
def registroDeFonte (f : Fonte) : Registro :=
  { cnpj := f.cnpj
    razao_social := f.razao_social
    seq_terceiro := f.seq_terceiro
    nr_repasse := f.nr_repasse
    nr_titulo := f.nr_titulo
    dt_lib_titulo := f.dt_lib_titulo
    email := f.email
    dt_ult_envio_email := f.dt_ult_envio_email
    status := "P"
    dt_lib_repasse := f.dt_lib_repasse
    cd_estabelecimento := f.cd_estabelecimento
    mensagem := none }

/-- The per-row loop of `Processamento.bd_importar_contas`
(src/processamento.py lines 292-321): for each source row, skip it when
its transfer number already exists in the staging table, otherwise
insert it (appending to the table) and count it.  Returns
(rows inserted, final table). -/
def importarLinhas : List Fonte → List Registro → Nat × List Registro
  | [], tabela => (0, tabela)
  | f :: resto, tabela =>
      if existeRepasse tabela f.nr_repasse then
        importarLinhas resto tabela
      else
        let (n, t) := importarLinhas resto (tabela ++ [registroDeFonte f])
        (n + 1, t)

/-- Embedding of `Processamento.bd_importar_contas` (lines 280-325): fetches the source
rows (modelled as the given list, already filtered/ordered/capped by the
SQL) and runs the check-then-insert loop.  The returned count is
`qtd_importados`. -/
def bd_importar_contas (fonte : List Fonte) (tabela : List Registro) : Nat × List Registro :=
  importarLinhas fonte tabela

/-- The existence check holds exactly when the transfer number occurs
among the table's keys. -/
lemma existeRepasse_iff (tabela : List Registro) (k : Nat) :
    existeRepasse tabela k = true ↔ k ∈ tabela.map Registro.nr_repasse := by
  simp [existeRepasse, List.any_eq_true, List.mem_map, beq_iff_eq]

/-- Import never removes a key: a transfer number present before the
loop is still present after it. -/
lemma existeRepasse_importarLinhas (fs : List Fonte) (k : Nat) :
    ∀ tabela : List Registro, existeRepasse tabela k = true →
      existeRepasse (importarLinhas fs tabela).2 k = true := by
  induction fs with
  | nil => intro tabela h; simpa [importarLinhas] using h
  | cons f resto ih =>
      intro tabela h
      by_cases hex : existeRepasse tabela f.nr_repasse = true
      · simpa [importarLinhas, hex] using ih tabela h
      · have h' : existeRepasse (tabela ++ [registroDeFonte f]) k = true := by
          simp [existeRepasse, List.any_append]
          simp [existeRepasse] at h
          exact Or.inl h
        simpa [importarLinhas, hex] using ih (tabela ++ [registroDeFonte f]) h'

/-- After one run of the loop, every source row's transfer number is
present in the staging table (either it was there before, or the loop
inserted it). -/
lemma chaves_apos_importar (fs : List Fonte) :
    ∀ tabela : List Registro, ∀ f ∈ fs,
      existeRepasse (importarLinhas fs tabela).2 f.nr_repasse = true := by
  induction fs with
  | nil => intro tabela f hf; cases hf
  | cons g resto ih =>
      intro tabela f hf
      by_cases hex : existeRepasse tabela g.nr_repasse = true
      · rcases List.mem_cons.mp hf with hfg | hfr
        · subst hfg
          simpa [importarLinhas, hex] using
            existeRepasse_importarLinhas resto f.nr_repasse tabela hex
        · simpa [importarLinhas, hex] using ih tabela f hfr
      · rcases List.mem_cons.mp hf with hfg | hfr
        · subst hfg
          have hpres : existeRepasse (tabela ++ [registroDeFonte f]) f.nr_repasse = true := by
            simp [existeRepasse, List.any_append, registroDeFonte]
          simpa [importarLinhas, hex] using
            existeRepasse_importarLinhas resto f.nr_repasse _ hpres
        · simpa [importarLinhas, hex] using ih (tabela ++ [registroDeFonte g]) f hfr

/-- When every source row's transfer number already exists in the table,
the loop inserts nothing and leaves the table untouched. -/
lemma importarLinhas_todos_existem (fs : List Fonte) :
    ∀ tabela : List Registro,
      (∀ f ∈ fs, existeRepasse tabela f.nr_repasse = true) →
      importarLinhas fs tabela = (0, tabela) := by
  induction fs with
  | nil => intro tabela _; simp [importarLinhas]
  | cons g resto ih =>
      intro tabela h
      have hg : existeRepasse tabela g.nr_repasse = true := h g (List.mem_cons_self g resto)
      have hrest : ∀ f ∈ resto, existeRepasse tabela f.nr_repasse = true :=
        fun f hf => h f (List.mem_cons_of_mem g hf)
      simp [importarLinhas, hg, ih tabela hrest]

/-- The check-before-insert keeps the transfer numbers duplicate-free:
if the staging table's keys are distinct before the loop, they are
distinct after it. -/
lemma importarLinhas_nodup (fs : List Fonte) :
    ∀ tabela : List Registro,
      (tabela.map Registro.nr_repasse).Nodup →
      ((importarLinhas fs tabela).2.map Registro.nr_repasse).Nodup := by
  induction fs with
  | nil => intro tabela h; simpa [importarLinhas] using h
  | cons f resto ih =>
      intro tabela h
      by_cases hex : existeRepasse tabela f.nr_repasse = true
      · simpa [importarLinhas, hex] using ih tabela h
      · have hnotin : f.nr_repasse ∉ tabela.map Registro.nr_repasse := by
          intro hmem
          exact hex ((existeRepasse_iff tabela f.nr_repasse).mpr hmem)
        have h' : ((tabela ++ [registroDeFonte f]).map Registro.nr_repasse).Nodup := by
          rw [List.map_append]
          refine List.Nodup.append h (by simp) ?_
          intro x hx hy
          simp [registroDeFonte] at hy
          exact hnotin (hy ▸ hx)
        simpa [importarLinhas, hex] using ih (tabela ++ [registroDeFonte f]) h'

/-- The behaviour-relevant part of the `Config` dataclass
(src/processamento.py lines 48-90): only `dev_mode` influences the
control flow modelled here (the email-destination override). -/
structure Config where
  dev_mode : Bool
  deriving Repr, DecidableEq

/-- Terminal classification of one record's pass through the loop body
of `executar` (lines 340-459). -/
inductive Saida where
  | incompleto    -- required-field validation failed (lines 351-358)
  | naoEncontrado -- sequence number did not resolve / grid row absent
  | falhaEnvio    -- abort dialog detected after submit (lines 440-449)
  | enviado       -- no abort dialog (lines 450-454)
  | erro          -- unexpected exception, caught at lines 456-459
  deriving Repr, DecidableEq

/-- Observable outcome of processing one record: classification, the
browser interactions performed (in order), the `registrar_log` calls
made, and the (status, mensagem) pair written by the UPDATE statement,
if any. -/
structure ResultadoRegistro where
  saida : Saida
  acoes : List Acao
  logs : List LogReg
  atualizacao : Option (String × String)
  deriving Repr, DecidableEq

/-- Outcome oracle for the browser calls of one record's try-block.
`none` models the call raising an unexpected exception; `some v` models
it returning `v`.  `nomePorTentativa t` is the result of the
`obter_texto` of polling attempt `t` (lines 380-384) with the inner
try already applied: a swallowed exception yields `none`, which is
falsy like an absent text. -/
structure AmbienteRegistro where
  aguardarRotuloFiltro : Option Bool    -- line 365
  clickRotuloFiltro : Option Bool       -- line 367
  aguardarModalFiltro : Option Bool     -- line 370
  definirSeqTerceiro : Option Unit      -- line 372
  blurJS : Option Unit                  -- line 375
  nomePorTentativa : Nat → Option String -- lines 378-388
  clickFiltrar : Option Bool            -- line 398
  aguardarLinhaGrid : Option Bool       -- line 402 (result checked)
  clickLinhaGrid : Option Bool          -- line 412
  aguardarPainelRepasse : Option Bool   -- line 414
  aguardarCelulaRepasse : Option Bool   -- line 417
  clickCelulaRepasse : Option Bool      -- line 419
  clickEnviarEmail : Option Bool        -- line 422
  aguardarDialogoEmail : Option Bool    -- line 425
  definirEmailDestino : Option Unit     -- lines 429/432
  clickEnviar : Option Bool             -- line 435
  aguardarDialogoAbortado : Option Bool -- line 438 (result checked)
  obterTextoAbortado : Option String    -- line 441
  clickOK : Option Bool                 -- line 443

/-- The incomplete-data message of lines 353-354 (Python f-string;
`None` renders as "None"). -/
def msgIncompleto (row : Registro) : String :=
  let e := pyStr row.email
  let d := pyStr row.dt_lib_titulo
  let n := pyStr row.nr_titulo
  let r := pyStr row.dt_lib_repasse
  s!"Dados não preenchidos. Email: {e} - Dt Liberação: {d} - Nr Titulo: {n} - Dt lib Repasse: {r}"

/-- The not-found message of lines 392/406 (names the sequence number). -/
def msgNaoEncontrado (seq : Nat) : String :=
  s!"Não encontrou a sequência: {seq}"

/-- The per-record error-log message of line 459. -/
def msgErroRepasse (nr : Nat) : String :=
  s!"Erro ao processar repasse {nr}"

/-- The bounded polling loop of lines 377-388 over the given list of
attempt indices: each attempt sleeps 0.5 s then reads the resolved-name
field; a truthy text breaks the loop.  Returns the final value of
`seq_encontrado` (the last attempt's value when no attempt was truthy,
exactly as in the source) together with the browser actions performed. -/
def pollLoop (f : Nat → Option String) : List Nat → Option String × List Acao
  | [] => (none, [])
  | t :: ts =>
      let s := f t
      let acs := [Acao.aguardar 5, Acao.obterTexto Sel.nomeTerceiro]
      if truthy s then (s, acs)
      else
        match ts with
        | [] => (s, acs)
        | _ :: _ =>
            let (r, a) := pollLoop f ts
            (r, acs ++ a)

/-- Sequencing of one browser call inside the per-record try-block
(lines 360-455): if the call raises (`none`), the record falls to the
per-record except-handler result `falha`; otherwise processing
continues with the returned value. -/
def tentar {α : Type} (chamada : Option α) (falha : ResultadoRegistro)
    (continuar : α → ResultadoRegistro) : ResultadoRegistro :=
  match chamada with
  | none => falha
  | some v => continuar v

@[simp] lemma tentar_none {α : Type} (falha : ResultadoRegistro)
    (continuar : α → ResultadoRegistro) : tentar none falha continuar = falha := rfl

@[simp] lemma tentar_some {α : Type} (v : α) (falha : ResultadoRegistro)
    (continuar : α → ResultadoRegistro) :
    tentar (some v) falha continuar = continuar v := rfl

/-- Result built by the per-record except-handler (lines 456-459):
no UPDATE is issued, an ERROR log entry is appended; the browser
actions already performed stand. -/
def resErro (acoes : List Acao) (nr : Nat) : ResultadoRegistro :=
  { saida := Saida.erro, acoes := acoes,
    logs := [⟨"ERROR", msgErroRepasse nr⟩],
    atualizacao := none }

/-- Result of the two not-found branches (lines 390-396 and 404-410):
status `I`, message naming the sequence number, one INFO log. -/
def resNaoEncontrado (acoes : List Acao) (seq : Nat) : ResultadoRegistro :=
  { saida := Saida.naoEncontrado, acoes := acoes,
    logs := [⟨"INFO", msgNaoEncontrado seq⟩],
    atualizacao := some ("I", msgNaoEncontrado seq) }

/-- The loop body of `Processamento.executar` for one record
(src/processamento.py lines 340-459), translated step by step: the
required-field validation (before any browser call), then the
try-block driving the ERP screens, with every browser call routed
through `tentar` so that an exception at any call lands in the
except-handler result. -/
def processarRegistro (cfg : Config) (env : AmbienteRegistro) (row : Registro) :
    ResultadoRegistro :=
  -- lines 351-358: required-field validation
  if !(truthy row.dt_lib_titulo && truthy row.nr_titulo && truthy row.email &&
        truthy row.dt_lib_repasse) then
    let msg := msgIncompleto row
    { saida := Saida.incompleto, acoes := [], logs := [⟨"INFO", msg⟩],
      atualizacao := some ("I", msg) }
  else
    let nr := row.nr_repasse
    let seq := row.seq_terceiro
    let a1 := [Acao.aguardarVisivel Sel.rotuloFiltro]
    tentar env.aguardarRotuloFiltro (resErro a1 nr) fun _ =>
    let a2 := a1 ++ [Acao.click Sel.rotuloFiltro]
    tentar env.clickRotuloFiltro (resErro a2 nr) fun _ =>
    let a3 := a2 ++ [Acao.aguardarVisivel Sel.modalFiltro]
    tentar env.aguardarModalFiltro (resErro a3 nr) fun _ =>
    let a4 := a3 ++ [Acao.definirValor Sel.inputSeqTerceiro (toString seq)]
    tentar env.definirSeqTerceiro (resErro a4 nr) fun _ =>
    let a5 := a4 ++ [Acao.aguardar 5, Acao.executarJavascript]
    tentar env.blurJS (resErro a5 nr) fun _ =>
    let poll := pollLoop env.nomePorTentativa (List.range' 1 10)
    let a6 := a5 ++ poll.2
    if !truthy poll.1 then
      -- lines 390-396
      resNaoEncontrado a6 seq
    else
    let a7 := a6 ++ [Acao.click Sel.botaoFiltrar]
    tentar env.clickFiltrar (resErro a7 nr) fun _ =>
    let a8 := a7 ++ [Acao.aguardar 10, Acao.aguardarVisivel (Sel.linhaGrid seq)]
    tentar env.aguardarLinhaGrid (resErro a8 nr) fun found =>
    if !found then
      -- lines 404-410
      resNaoEncontrado a8 seq
    else
    let a9 := a8 ++ [Acao.click (Sel.linhaGrid seq)]
    tentar env.clickLinhaGrid (resErro a9 nr) fun _ =>
    let a10 := a9 ++ [Acao.aguardarVisivel Sel.painelRepasse]
    tentar env.aguardarPainelRepasse (resErro a10 nr) fun _ =>
    let a11 := a10 ++ [Acao.aguardarVisivel (Sel.celulaRepasse nr)]
    tentar env.aguardarCelulaRepasse (resErro a11 nr) fun _ =>
    let a12 := a11 ++ [Acao.click (Sel.celulaRepasse nr)]
    tentar env.clickCelulaRepasse (resErro a12 nr) fun _ =>
    let a13 := a12 ++ [Acao.click Sel.botaoEnviarEmail]
    tentar env.clickEnviarEmail (resErro a13 nr) fun _ =>
    let a14 := a13 ++ [Acao.aguardarVisivel Sel.dialogoEmailDestino]
    tentar env.aguardarDialogoEmail (resErro a14 nr) fun _ =>
    let destino := if cfg.dev_mode then "aalves@austa.com.br" else pyStr row.email
    let a15 := a14 ++ [Acao.definirValor Sel.inputEmailDestino destino]
    tentar env.definirEmailDestino (resErro a15 nr) fun _ =>
    let a16 := a15 ++ [Acao.click Sel.botaoEnviar]
    tentar env.clickEnviar (resErro a16 nr) fun _ =>
    let a17 := a16 ++ [Acao.aguardarVisivel Sel.dialogoAbortado]
    tentar env.aguardarDialogoAbortado (resErro a17 nr) fun aborted =>
    if aborted then
      -- lines 440-449: abort dialog detected
      let a18 := a17 ++ [Acao.obterTexto Sel.textoDialogoAbortado]
      tentar env.obterTextoAbortado (resErro a18 nr) fun _ =>
      let a19 := a18 ++ [Acao.click Sel.botaoOK]
      tentar env.clickOK (resErro a19 nr) fun _ =>
      { saida := Saida.falhaEnvio, acoes := a19,
        logs := [⟨"INFO", "Falha no envio do email"⟩],
        atualizacao := some ("False", "Falha no envio do email") }
    else
      -- lines 450-454: no abort dialog; note: no registrar_log call here
      { saida := Saida.enviado, acoes := a17, logs := [],
        atualizacao := some ("E", "Enviado") }

/-- The UPDATE `hos_repasse_medico SET status = :1, mensagem = :2 WHERE
nr_repasse = :3` applied to the table. -/
def aplicarAtualizacao (tabela : List Registro) (nr : Nat) (st msg : String) :
    List Registro :=
  tabela.map fun r =>
    if r.nr_repasse == nr then { r with status := st, mensagem := some msg } else r

/-- Applies a record result's UPDATE, if any, to the table. -/
def atualizarTabela (tabela : List Registro) (nr : Nat) :
    Option (String × String) → List Registro
  | none => tabela
  | some (st, msg) => aplicarAtualizacao tabela nr st msg

/-- The per-record loop of `executar` (lines 340-459) as written in the
source: iterates over the selected snapshot of pending rows, processing
record `i` with environment `envs i` and applying its UPDATE to the
table.  Returns the final table and the per-record results in order. -/
def loopEnvio (cfg : Config) (envs : Nat → AmbienteRegistro) :
    List Registro → Nat → List Registro → List Registro × List ResultadoRegistro
  | [], _, tabela => (tabela, [])
  | row :: resto, i, tabela =>
      let r := processarRegistro cfg (envs i) row
      let tabela' := atualizarTabela tabela row.nr_repasse r.atualizacao
      let resto' := loopEnvio cfg envs resto (i + 1) tabela'
      (resto'.1, r :: resto'.2)

/-- Failure modes of `login_tasy` modelled here are its three checked
conditions; the unchecked waits/clicks/fills of the login script are
modelled as returning normally. -/
structure AmbienteLogin where
  dialogoAposLogin : Bool  -- wait at line 237 (False → early return False)
  campoPesquisaMenu : Bool -- wait at line 266 (False → RuntimeError, caught at 259)
  telaEncontrada : Bool    -- wait at line 273 (False → AssertionError, caught at 259)
  deriving Repr, DecidableEq

/-- Embedding of `Processamento.login_tasy` (lines 220-262) together with
`tasy_navegar_menu_telas` (lines 264-278), which it calls last.
Returns (success flag, registrar_log calls, browser actions). -/
def login_tasy (usuario senha : String) (env : AmbienteLogin) :
    Bool × List LogReg × List Acao :=
  let a1 : List Acao :=
    [Acao.navegar,
     Acao.aguardarVisivel Sel.loginUsername,
     Acao.definirValor Sel.loginUsername usuario,
     Acao.definirValor Sel.loginPassword senha,
     Acao.click Sel.botaoLogin,
     Acao.aguardarVisivel Sel.dialogoAposLogin]
  if !env.dialogoAposLogin then
    -- lines 237-240
    (false, [⟨"INFO", "Login Tasy: False"⟩], a1)
  else
    let a2 := a1 ++
      [Acao.click Sel.dialogoAposLogin, Acao.click Sel.popupTasyNative,
       Acao.click Sel.popupNgdialog2, Acao.click Sel.popupAgoraNao,
       Acao.click Sel.popupComunicacao, Acao.click Sel.popupAdministracao,
       Acao.aguardarVisivel Sel.campoPesquisaMenu]
    if !env.campoPesquisaMenu then
      (false, [⟨"INFO", "Login Tasy: True"⟩, ⟨"ERROR", "Login Tasy: False"⟩], a2)
    else
      let a3 := a2 ++
        [Acao.definirValor Sel.campoPesquisaMenu "Repasse para Terceiros",
         Acao.aguardarVisivel Sel.itemMenuTela]
      if !env.telaEncontrada then
        (false, [⟨"INFO", "Login Tasy: True"⟩, ⟨"ERROR", "Login Tasy: False"⟩], a3)
      else
        (true, [⟨"INFO", "Login Tasy: True"⟩], a3 ++ [Acao.click Sel.itemMenuTela])

/-- The SELECT of line 331: all rows currently in status `P`. -/
def pendentes (tabela : List Registro) : List Registro :=
  tabela.filter fun r => r.status == "P"

/-- Observable outcome of one `executar` call. -/
structure ResultadoExecutar where
  logs : List LogReg
  pendentesSelecionados : List Registro
  loginSucesso : Bool
  acoes : List Acao
  resultados : List ResultadoRegistro
  tabelaFinal : List Registro
  deriving Repr, DecidableEq

/-- Embedding of `Processamento.executar` as written (src/processamento.py lines
327-338): logs the start message, selects the pending rows, calls
`login_tasy`, and returns.  The empty-selection guard of lines 333-335
is a triple-quoted string literal (commented out), and the
unconditional `return` at line 338 precedes the per-record loop of
lines 340-459, so that loop is unreachable: `resultados` is always
empty and the table is never updated. -/
def executar (idExec usuario senha : String) (envLogin : AmbienteLogin)
    (tabela : List Registro) : ResultadoExecutar :=
  let login := login_tasy usuario senha envLogin
  { logs := ⟨"INFO", s!"Inicio robô - Id Exec: {idExec}"⟩ :: login.2.1,
    pendentesSelecionados := pendentes tabela,
    loginSucesso := login.1,
    acoes := login.2.2,
    resultados := [],
    tabelaFinal := tabela }

/-- Ownership-relevant state of a `Processamento` instance: whether the
db / browser handles are set (`self.db is not None`,
`self.navegador is not None`) and the `_owns_db` / `_owns_browser`
flags. -/
structure Processamento where
  dbPresente : Bool
  navPresente : Bool
  owns_db : Bool
  owns_browser : Bool
  deriving Repr, DecidableEq

/-- Embedding of `Processamento.__init__` (lines 94-100): handles as supplied by the
caller; the owns flags are set exactly when the corresponding handle
was NOT supplied. -/
def initProcessamento (dbFornecido navFornecido : Bool) : Processamento :=
  { dbPresente := dbFornecido, navPresente := navFornecido,
    owns_db := !dbFornecido, owns_browser := !navFornecido }

/-- The resource-acquisition part of `Processamento.inicializar`
(lines 112-128): the browser is instantiated first (when absent), then
the DB connection (when absent); a creation failure re-raises, leaving
the handle unset.  The remainder of `inicializar` (parameter fetch, run
registration, lines 130-168) is wrapped in a swallow-all except and
touches no handle, so it is omitted.  Returns (state, exception?). -/
def inicializar (p : Processamento) (navCriacaoOk dbConexaoOk : Bool) :
    Processamento × Bool :=
  if !p.navPresente && !navCriacaoOk then (p, true)
  else
    let p1 := if p.navPresente then p
              else { p with navPresente := true, owns_browser := true }
    if !p1.dbPresente && !dbConexaoOk then (p1, true)
    else
      let p2 := if p1.dbPresente then p1
                else { p1 with dbPresente := true, owns_db := true }
      (p2, false)

/-- Embedding of `Processamento.finalizar` (lines 461-485): number of close calls
issued on the DB handle and on the browser handle.  `self.db.close()`
runs (in the `finally`) iff the db handle is set and `_owns_db` holds;
`fechar_navegador()` runs iff the browser handle is set and
`_owns_browser` holds (a self-created `WebController` always has the
`fechar_navegador` attribute checked by `hasattr`). -/
def finalizar (p : Processamento) : Nat × Nat :=
  ((if p.dbPresente && p.owns_db then 1 else 0),
   (if p.navPresente && p.owns_browser then 1 else 0))

/-- Value produced by `WebController._encontrar_elemento`: either a
WebElement (truthy) or the Python literal `False` returned after a
swallowed TimeoutException. -/
inductive BuscaElemento where
  | elemento -- a WebElement (truthy)
  | falso    -- the literal False (falsy)
  deriving Repr, DecidableEq

/-- Embedding of `WebController._encontrar_elemento` (src/comandos.py lines 525-536):
waits for DOM presence of the selector; when the element never becomes
present within the timeout, the TimeoutException is caught, an error is
logged, and `False` is returned — the exception does not propagate. -/
def encontrar_elemento (presenteNoTimeout : Bool) : BuscaElemento :=
  if presenteNoTimeout then BuscaElemento.elemento else BuscaElemento.falso

/-- Observable outcome of `click_elemento`: the value returned to the
caller (`none` = an exception propagated instead of returning), and
whether a click was attempted on an element. -/
structure ResultadoClick where
  retorno : Option Bool
  clicou : Bool
  deriving Repr, DecidableEq

/-- Embedding of `WebController.click_elemento` (src/comandos.py lines 277-307):
looks the element up via `_encontrar_elemento`; if the lookup yielded
`False` both branches skip the click and the function falls through to
`return False`.  `clickLanca` models the click on a real element itself
raising (e.g. intercepted click), which propagates uncaught. -/
def click_elemento (presenteNoTimeout js clickLanca : Bool) : ResultadoClick :=
  match encontrar_elemento presenteNoTimeout with
  | BuscaElemento.elemento =>
      if js then
        if clickLanca then { retorno := none, clicou := true }
        else { retorno := some true, clicou := true }
      else
        if clickLanca then { retorno := none, clicou := true }
        else { retorno := some true, clicou := true }
  | BuscaElemento.falso => { retorno := some false, clicou := false }

/-- Characterization of one record's outcome: what UPDATE and what
`registrar_log` calls accompany each terminal classification.  Note the
`enviado` path issues its UPDATE but makes no `registrar_log` call. -/
lemma processar_caracterizacao (cfg : Config) (env : AmbienteRegistro) (row : Registro) :
    ((processarRegistro cfg env row).saida = Saida.incompleto →
      (processarRegistro cfg env row).atualizacao = some ("I", msgIncompleto row) ∧
      (processarRegistro cfg env row).logs = [⟨"INFO", msgIncompleto row⟩]) ∧
    ((processarRegistro cfg env row).saida = Saida.naoEncontrado →
      (processarRegistro cfg env row).atualizacao =
        some ("I", msgNaoEncontrado row.seq_terceiro) ∧
      (processarRegistro cfg env row).logs =
        [⟨"INFO", msgNaoEncontrado row.seq_terceiro⟩]) ∧
    ((processarRegistro cfg env row).saida = Saida.falhaEnvio →
      (processarRegistro cfg env row).atualizacao =
        some ("False", "Falha no envio do email") ∧
      (processarRegistro cfg env row).logs = [⟨"INFO", "Falha no envio do email"⟩]) ∧
    ((processarRegistro cfg env row).saida = Saida.enviado →
      (processarRegistro cfg env row).atualizacao = some ("E", "Enviado") ∧
      (processarRegistro cfg env row).logs = []) ∧
    ((processarRegistro cfg env row).saida = Saida.erro →
      (processarRegistro cfg env row).atualizacao = none ∧
      (processarRegistro cfg env row).logs =
        [⟨"ERROR", msgErroRepasse row.nr_repasse⟩]) := by
  rcases env with ⟨f1, f2, f3, f4, f5, nome, f7, f8, f9, f10, f11, f12, f13, f14, f15,
    f16, f17, f18, f19⟩
  unfold processarRegistro
  split
  · simp
  · dsimp only
    cases f1 with
    | none => simp [resErro]
    | some b1 =>
      simp only [tentar_some]
      cases f2 with
      | none => simp [resErro]
      | some b2 =>
        simp only [tentar_some]
        cases f3 with
        | none => simp [resErro]
        | some b3 =>
          simp only [tentar_some]
          cases f4 with
          | none => simp [resErro]
          | some u4 =>
            simp only [tentar_some]
            cases f5 with
            | none => simp [resErro]
            | some u5 =>
              simp only [tentar_some]
              by_cases hpoll : truthy (pollLoop nome (List.range' 1 10)).1
              case neg =>
                simp only [hpoll, Bool.not_false, if_true]
                simp [resNaoEncontrado]
              case pos =>
                simp only [hpoll, Bool.not_true, Bool.false_eq_true, if_false]
                cases f7 with
                | none => simp [resErro]
                | some b7 =>
                  simp only [tentar_some]
                  cases f8 with
                  | none => simp [resErro]
                  | some found =>
                    simp only [tentar_some]
                    cases found with
                    | false => simp [resNaoEncontrado]
                    | true =>
                      simp only [Bool.not_true, Bool.false_eq_true, if_false]
                      cases f9 with
                      | none => simp [resErro]
                      | some b9 =>
                        simp only [tentar_some]
                        cases f10 with
                        | none => simp [resErro]
                        | some b10 =>
                          simp only [tentar_some]
                          cases f11 with
                          | none => simp [resErro]
                          | some b11 =>
                            simp only [tentar_some]
                            cases f12 with
                            | none => simp [resErro]
                            | some b12 =>
                              simp only [tentar_some]
                              cases f13 with
                              | none => simp [resErro]
                              | some b13 =>
                                simp only [tentar_some]
                                cases f14 with
                                | none => simp [resErro]
                                | some b14 =>
                                  simp only [tentar_some]
                                  cases f15 with
                                  | none => simp [resErro]
                                  | some u15 =>
                                    simp only [tentar_some]
                                    cases f16 with
                                    | none => simp [resErro]
                                    | some b16 =>
                                      simp only [tentar_some]
                                      cases f17 with
                                      | none => simp [resErro]
                                      | some aborted =>
                                        simp only [tentar_some]
                                        cases aborted with
                                        | false => simp
                                        | true =>
                                          simp only [if_true]
                                          cases f18 with
                                          | none => simp [resErro]
                                          | some s18 =>
                                            simp only [tentar_some]
                                            cases f19 with
                                            | none => simp [resErro]
                                            | some b19 => simp

/-- The loop visits every selected record: one result per record. -/
lemma loopEnvio_length (cfg : Config) (envs : Nat → AmbienteRegistro) :
    ∀ (ps : List Registro) (i : Nat) (tab : List Registro),
      (loopEnvio cfg envs ps i tab).2.length = ps.length := by
  intro ps
  induction ps with
  | nil => intro i tab; simp [loopEnvio]
  | cons row resto ih => intro i tab; simp [loopEnvio, ih]

/-- Each record's result is computed from that record and its own
environment alone: an earlier record's failure cannot change it. -/
lemma loopEnvio_get (cfg : Config) (envs : Nat → AmbienteRegistro) :
    ∀ (ps : List Registro) (i : Nat) (tab : List Registro) (j : Nat) (row : Registro),
      ps[j]? = some row →
      (loopEnvio cfg envs ps i tab).2[j]? =
        some (processarRegistro cfg (envs (i + j)) row) := by
  intro ps
  induction ps with
  | nil => intro i tab j row h; simp at h
  | cons row0 resto ih =>
      intro i tab j row h
      cases j with
      | zero =>
          simp at h
          subst h
          simp [loopEnvio]
      | succ j =>
          simp only [List.getElem?_cons_succ] at h
          have := ih (i + 1) (atualizarTabela tab row0.nr_repasse
            (processarRegistro cfg (envs i) row0).atualizacao) j row h
          simp only [loopEnvio, List.getElem?_cons_succ]
          have harit : i + (j + 1) = i + 1 + j := by omega
          rw [harit]
          exact this

/-- Rows of the table whose transfer number is `k` are untouched by the
loop, provided every selected record with that transfer number issues
no UPDATE. -/
lemma loopEnvio_preserva (cfg : Config) (envs : Nat → AmbienteRegistro) (k : Nat) :
    ∀ (ps : List Registro) (i : Nat) (tab : List Registro),
      (∀ (j : Nat) (rj : Registro), ps[j]? = some rj → rj.nr_repasse = k →
          (processarRegistro cfg (envs (i + j)) rj).atualizacao = none) →
      ∀ (m : Nat) (rr : Registro), tab[m]? = some rr → rr.nr_repasse = k →
        (loopEnvio cfg envs ps i tab).1[m]? = some rr := by
  intro ps
  induction ps with
  | nil => intro i tab _ m rr hm _; simpa [loopEnvio] using hm
  | cons row resto ih =>
      intro i tab h m rr hm hk
      have htab' : (atualizarTabela tab row.nr_repasse
          (processarRegistro cfg (envs i) row).atualizacao)[m]? = some rr := by
        cases hatu : (processarRegistro cfg (envs i) row).atualizacao with
        | none => simpa [atualizarTabela] using hm
        | some par =>
            have hne : row.nr_repasse ≠ k := by
              intro he
              have h0 := h 0 row (by simp) he
              simp only [Nat.add_zero] at h0
              rw [h0] at hatu
              cases hatu
            obtain ⟨st, msg⟩ := par
            have hne2 : rr.nr_repasse ≠ row.nr_repasse := fun he => hne (he.symm.trans hk)
            simp [atualizarTabela, aplicarAtualizacao, List.getElem?_map, hm, hne2]
      have h' : ∀ (j : Nat) (rj : Registro), resto[j]? = some rj → rj.nr_repasse = k →
          (processarRegistro cfg (envs (i + 1 + j)) rj).atualizacao = none := by
        intro j rj hj hkj
        have := h (j + 1) rj (by simpa using hj) hkj
        have harit : i + (j + 1) = i + 1 + j := by omega
        rwa [harit] at this
      simpa [loopEnvio] using ih (i + 1) _ h' m rr htab' hk

/-! Concrete example values used by witnesses and counterexamples. -/

/-- A fully populated source row. -/
def fonteExemplo : Fonte :=
  { cnpj := some "11222333000144", razao_social := some "CLINICA EXEMPLO",
    seq_terceiro := 7, nr_repasse := 100, nr_titulo := some "5005",
    dt_lib_titulo := some "02/09/2025 10:00:00", email := some "medico@exemplo.com",
    dt_ult_envio_email := none, dt_lib_repasse := some "03/09/2025 09:00:00",
    cd_estabelecimento := some "4" }

/-- A pending staging row with all four required fields present. -/
def registroCompleto : Registro := registroDeFonte fonteExemplo

/-- A pending staging row with a null email field (distinct key). -/
def registroSemEmail : Registro :=
  { registroCompleto with email := none, nr_repasse := 101 }

/-- Production configuration (dev-mode off). -/
def cfgProd : Config := { dev_mode := false }

/-- A per-record browser environment in which every call returns
normally, the name resolves at once, the grid row is found, and no
abort dialog appears. -/
def envOk : AmbienteRegistro :=
  { aguardarRotuloFiltro := some true, clickRotuloFiltro := some true,
    aguardarModalFiltro := some true, definirSeqTerceiro := some (),
    blurJS := some (), nomePorTentativa := fun _ => some "TERCEIRO EXEMPLO",
    clickFiltrar := some true, aguardarLinhaGrid := some true,
    clickLinhaGrid := some true, aguardarPainelRepasse := some true,
    aguardarCelulaRepasse := some true, clickCelulaRepasse := some true,
    clickEnviarEmail := some true, aguardarDialogoEmail := some true,
    definirEmailDestino := some (), clickEnviar := some true,
    aguardarDialogoAbortado := some false,
    obterTextoAbortado := some "detalhe do dialogo", clickOK := some true }

/-- Like `envOk` but the abort dialog appears after submit. -/
def envAborta : AmbienteRegistro := { envOk with aguardarDialogoAbortado := some true }

/-- Like `envOk` but the third party's name never resolves (all 10
polling attempts yield a swallowed exception / no text). -/
def envNomeFalha : AmbienteRegistro := { envOk with nomePorTentativa := fun _ => none }

/-- Like `envOk` but the click on the Filtrar button raises an
unexpected exception. -/
def envErroClick : AmbienteRegistro := { envOk with clickFiltrar := none }

/-- A login environment in which every checked condition succeeds. -/
def envLoginOk : AmbienteLogin :=
  { dialogoAposLogin := true, campoPesquisaMenu := true, telaEncontrada := true }

/-- C1 (code bug evidence): with one pending, fully populated record and
a login that succeeds, `executar` as written performs the login and
returns: it processes zero records and leaves the record in status `P`
(neither a terminal status nor an error log is produced for it),
contradicting the contract that every pending record is attempted.  The
cause is the unconditional `return` at line 338 of
src/processamento.py, which makes the per-record loop unreachable. -/
theorem C1_executar_nao_processa_pendentes :
    (executar "1" "usr" "pwd" envLoginOk [registroCompleto]).loginSucesso = true ∧
    (executar "1" "usr" "pwd" envLoginOk [registroCompleto]).pendentesSelecionados =
      [registroCompleto] ∧
    (executar "1" "usr" "pwd" envLoginOk [registroCompleto]).resultados = [] ∧
    (executar "1" "usr" "pwd" envLoginOk [registroCompleto]).tabelaFinal =
      [registroCompleto] ∧
    registroCompleto.status = "P" :=
  ⟨rfl, rfl, rfl, rfl, rfl⟩

/-- C2 (code bug evidence): with an empty staging table (no pending
records at all), `executar` still drives the browser: the
empty-selection guard of lines 333-335 is commented out (a string
literal), so `login_tasy` runs and navigates, contradicting the
early-return / no-browser-interaction contract. -/
theorem C2_executar_vazio_ainda_navega :
    (executar "1" "usr" "pwd" envLoginOk []).pendentesSelecionados = [] ∧
    Acao.navegar ∈ (executar "1" "usr" "pwd" envLoginOk []).acoes ∧
    (executar "1" "usr" "pwd" envLoginOk []).acoes ≠ [] := by
  refine ⟨rfl, ?_, ?_⟩ <;> simp [executar, login_tasy, envLoginOk]

/-- C3: the import is idempotent — a second run over the same source
dataset inserts zero rows and leaves the staging table identical to the
state after the first run — and the check-before-insert never creates a
duplicate transfer number: distinctness of the keys is preserved. -/
theorem C3_import_idempotente (fonte : List Fonte) (tabela : List Registro) :
    (bd_importar_contas fonte (bd_importar_contas fonte tabela).2).1 = 0 ∧
    (bd_importar_contas fonte (bd_importar_contas fonte tabela).2).2 =
      (bd_importar_contas fonte tabela).2 ∧
    ((tabela.map Registro.nr_repasse).Nodup →
      ((bd_importar_contas fonte tabela).2.map Registro.nr_repasse).Nodup) := by
  have h := importarLinhas_todos_existem fonte ((bd_importar_contas fonte tabela).2)
    (fun f hf => chaves_apos_importar fonte tabela f hf)
  exact ⟨by simpa [bd_importar_contas] using congrArg Prod.fst h,
    by simpa [bd_importar_contas] using congrArg Prod.snd h,
    importarLinhas_nodup fonte tabela⟩

/-- Witness for C3 at a concrete dataset: importing `[fonteExemplo]`
into an empty table twice inserts zero rows the second time, and the
resulting keys are duplicate-free. -/
theorem C3_witness :
    (bd_importar_contas [fonteExemplo] (bd_importar_contas [fonteExemplo] []).2).1 = 0 ∧
    ((bd_importar_contas [fonteExemplo] []).2.map Registro.nr_repasse).Nodup :=
  ⟨(C3_import_idempotente [fonteExemplo] []).1,
   (C3_import_idempotente [fonteExemplo] []).2.2 (by simp)⟩

/-- C4 counterexample: a record that completes submission without an
abort dialog reaches the terminal sent state (`E`), its row IS updated,
but NO `registrar_log` call is made on this path (lines 450-454 of
src/processamento.py contain no `registrar_log`), refuting the claim
that a log entry is appended for every terminal transition, "in
particular also on the sent path". -/
theorem C4_contraexemplo_enviado_sem_log :
    (processarRegistro cfgProd envOk registroCompleto).saida = Saida.enviado ∧
    (processarRegistro cfgProd envOk registroCompleto).atualizacao =
      some ("E", "Enviado") ∧
    (processarRegistro cfgProd envOk registroCompleto).logs = [] :=
  ⟨rfl, rfl, rfl⟩

/-- C4 (amended): every terminal transition writes the new status and a
human-readable message to the record's row; the incomplete, not-found
and send-failed transitions additionally append a log entry, but the
sent (`E`) transition appends none. -/
theorem C4_terminal_escreve_status (cfg : Config) (env : AmbienteRegistro)
    (row : Registro) :
    ((processarRegistro cfg env row).saida = Saida.incompleto →
      (processarRegistro cfg env row).atualizacao = some ("I", msgIncompleto row) ∧
      (processarRegistro cfg env row).logs ≠ []) ∧
    ((processarRegistro cfg env row).saida = Saida.naoEncontrado →
      (processarRegistro cfg env row).atualizacao =
        some ("I", msgNaoEncontrado row.seq_terceiro) ∧
      (processarRegistro cfg env row).logs ≠ []) ∧
    ((processarRegistro cfg env row).saida = Saida.falhaEnvio →
      (processarRegistro cfg env row).atualizacao =
        some ("False", "Falha no envio do email") ∧
      (processarRegistro cfg env row).logs ≠ []) ∧
    ((processarRegistro cfg env row).saida = Saida.enviado →
      (processarRegistro cfg env row).atualizacao = some ("E", "Enviado") ∧
      (processarRegistro cfg env row).logs = []) := by
  obtain ⟨h1, h2, h3, h4, _⟩ := processar_caracterizacao cfg env row
  refine ⟨fun h => ⟨(h1 h).1, ?_⟩, fun h => ⟨(h2 h).1, ?_⟩, fun h => ⟨(h3 h).1, ?_⟩, h4⟩
  · simp [(h1 h).2]
  · simp [(h2 h).2]
  · simp [(h3 h).2]

/-- Witness for C4 (amended) at a concrete input: the incomplete path
of `registroSemEmail` both updates the row and logs. -/
theorem C4_witness :
    (processarRegistro cfgProd envOk registroSemEmail).atualizacao =
      some ("I", msgIncompleto registroSemEmail) ∧
    (processarRegistro cfgProd envOk registroSemEmail).logs ≠ [] :=
  (C4_terminal_escreve_status cfgProd envOk registroSemEmail).1 rfl

/-- The last element of `x :: (l ++ b :: m)` is the last of `b :: m`. -/
lemma getLast?_cons_append_cons {α : Type} (x b : α) (l m : List α) :
    (x :: (l ++ b :: m)).getLast? = (b :: m).getLast? := by
  rw [← List.cons_append]
  exact List.getLast?_append_cons (x :: l) b m

/-- C5: whenever the per-record sequence reaches the post-submit check
and the abort dialog is detected (`aguardar_elemento_visivel` on the
abort dialog returns true within its 5 s timeout), the workflow reads
the dialog text, clicks its OK button as its last browser action
(dismissing it before moving on), and updates the row with the literal
failure marker `"False"` and the message `Falha no envio do email`. -/
theorem C5_dialogo_abortado (cfg : Config) (env : AmbienteRegistro) (row : Registro)
    (b1 b2 b3 : Bool) (u4 u5 : Unit) (b7 b9 b10 b11 b12 b13 b14 : Bool)
    (u15 : Unit) (b16 : Bool) (s18 : String) (b19 : Bool)
    (hcampos : (truthy row.dt_lib_titulo && truthy row.nr_titulo && truthy row.email &&
      truthy row.dt_lib_repasse) = true)
    (h1 : env.aguardarRotuloFiltro = some b1)
    (h2 : env.clickRotuloFiltro = some b2)
    (h3 : env.aguardarModalFiltro = some b3)
    (h4 : env.definirSeqTerceiro = some u4)
    (h5 : env.blurJS = some u5)
    (hnome : truthy (pollLoop env.nomePorTentativa (List.range' 1 10)).1 = true)
    (h7 : env.clickFiltrar = some b7)
    (h8 : env.aguardarLinhaGrid = some true)
    (h9 : env.clickLinhaGrid = some b9)
    (h10 : env.aguardarPainelRepasse = some b10)
    (h11 : env.aguardarCelulaRepasse = some b11)
    (h12 : env.clickCelulaRepasse = some b12)
    (h13 : env.clickEnviarEmail = some b13)
    (h14 : env.aguardarDialogoEmail = some b14)
    (h15 : env.definirEmailDestino = some u15)
    (h16 : env.clickEnviar = some b16)
    (h17 : env.aguardarDialogoAbortado = some true)
    (h18 : env.obterTextoAbortado = some s18)
    (h19 : env.clickOK = some b19) :
    (processarRegistro cfg env row).saida = Saida.falhaEnvio ∧
    (processarRegistro cfg env row).atualizacao =
      some ("False", "Falha no envio do email") ∧
    (processarRegistro cfg env row).logs = [⟨"INFO", "Falha no envio do email"⟩] ∧
    (processarRegistro cfg env row).acoes.getLast? = some (Acao.click Sel.botaoOK) := by
  simp [processarRegistro, hcampos, h1, h2, h3, h4, h5, hnome, h7, h8, h9, h10, h11,
    h12, h13, h14, h15, h16, h17, h18, h19, getLast?_cons_append_cons,
    List.getLast?_cons_cons]

/-- Witness for C5: with `envAborta` (abort dialog detected) and the
complete record, the row gets the `"False"` marker and the OK click is
the final browser action. -/
theorem C5_witness :
    (processarRegistro cfgProd envAborta registroCompleto).atualizacao =
      some ("False", "Falha no envio do email") ∧
    (processarRegistro cfgProd envAborta registroCompleto).acoes.getLast? =
      some (Acao.click Sel.botaoOK) := by
  have h := C5_dialogo_abortado cfgProd envAborta registroCompleto true true true () ()
    true true true true true true true () true "detalhe do dialogo" true rfl rfl rfl rfl
    rfl rfl rfl rfl rfl rfl rfl rfl rfl rfl rfl rfl rfl rfl rfl rfl
  exact ⟨h.2.1, h.2.2.2⟩

/-- C6: a pending record missing any of the four required fields is set
to status `I` with the message naming the (rendered) field values, an
INFO log is made, and no browser interaction at all happens for that
record (`acoes = []`). -/
theorem C6_incompleto_sem_navegador (cfg : Config) (env : AmbienteRegistro)
    (row : Registro)
    (h : truthy row.dt_lib_titulo = false ∨ truthy row.nr_titulo = false ∨
         truthy row.email = false ∨ truthy row.dt_lib_repasse = false) :
    processarRegistro cfg env row =
      { saida := Saida.incompleto, acoes := [],
        logs := [⟨"INFO", msgIncompleto row⟩],
        atualizacao := some ("I", msgIncompleto row) } := by
  have hb : (truthy row.dt_lib_titulo && truthy row.nr_titulo && truthy row.email &&
      truthy row.dt_lib_repasse) = false := by
    rcases h with h | h | h | h <;> simp [h]
  simp [processarRegistro, hb]

/-- Witness for C6: the record with a null email is skipped before any
browser call. -/
theorem C6_witness :
    processarRegistro cfgProd envOk registroSemEmail =
      { saida := Saida.incompleto, acoes := [],
        logs := [⟨"INFO", msgIncompleto registroSemEmail⟩],
        atualizacao := some ("I", msgIncompleto registroSemEmail) } :=
  C6_incompleto_sem_navegador cfgProd envOk registroSemEmail
    (Or.inr (Or.inr (Or.inl rfl)))

/-- C7: when the third party's name fails to resolve on every one of the
10 bounded polling attempts (each preceded by the fixed 0.5 s delay),
the record is set to status `I` with the message naming the sequence
number, and the record's browser trace — exactly 10 delay+read attempt
pairs after the filter set-up — never contains the send-email click. -/
theorem C7_nome_nao_resolve (cfg : Config) (env : AmbienteRegistro) (row : Registro)
    (b1 b2 b3 : Bool) (u4 u5 : Unit)
    (hcampos : (truthy row.dt_lib_titulo && truthy row.nr_titulo && truthy row.email &&
      truthy row.dt_lib_repasse) = true)
    (h1 : env.aguardarRotuloFiltro = some b1)
    (h2 : env.clickRotuloFiltro = some b2)
    (h3 : env.aguardarModalFiltro = some b3)
    (h4 : env.definirSeqTerceiro = some u4)
    (h5 : env.blurJS = some u5)
    (hnome : ∀ t, truthy (env.nomePorTentativa t) = false) :
    (processarRegistro cfg env row).saida = Saida.naoEncontrado ∧
    (processarRegistro cfg env row).atualizacao =
      some ("I", msgNaoEncontrado row.seq_terceiro) ∧
    (processarRegistro cfg env row).logs =
      [⟨"INFO", msgNaoEncontrado row.seq_terceiro⟩] ∧
    (processarRegistro cfg env row).acoes =
      [Acao.aguardarVisivel Sel.rotuloFiltro, Acao.click Sel.rotuloFiltro,
       Acao.aguardarVisivel Sel.modalFiltro,
       Acao.definirValor Sel.inputSeqTerceiro (toString row.seq_terceiro),
       Acao.aguardar 5, Acao.executarJavascript,
       Acao.aguardar 5, Acao.obterTexto Sel.nomeTerceiro,
       Acao.aguardar 5, Acao.obterTexto Sel.nomeTerceiro,
       Acao.aguardar 5, Acao.obterTexto Sel.nomeTerceiro,
       Acao.aguardar 5, Acao.obterTexto Sel.nomeTerceiro,
       Acao.aguardar 5, Acao.obterTexto Sel.nomeTerceiro,
       Acao.aguardar 5, Acao.obterTexto Sel.nomeTerceiro,
       Acao.aguardar 5, Acao.obterTexto Sel.nomeTerceiro,
       Acao.aguardar 5, Acao.obterTexto Sel.nomeTerceiro,
       Acao.aguardar 5, Acao.obterTexto Sel.nomeTerceiro,
       Acao.aguardar 5, Acao.obterTexto Sel.nomeTerceiro] ∧
    Acao.click Sel.botaoEnviarEmail ∉ (processarRegistro cfg env row).acoes := by
  have hpoll : pollLoop env.nomePorTentativa (List.range' 1 10) =
      (env.nomePorTentativa 10,
       [Acao.aguardar 5, Acao.obterTexto Sel.nomeTerceiro,
        Acao.aguardar 5, Acao.obterTexto Sel.nomeTerceiro,
        Acao.aguardar 5, Acao.obterTexto Sel.nomeTerceiro,
        Acao.aguardar 5, Acao.obterTexto Sel.nomeTerceiro,
        Acao.aguardar 5, Acao.obterTexto Sel.nomeTerceiro,
        Acao.aguardar 5, Acao.obterTexto Sel.nomeTerceiro,
        Acao.aguardar 5, Acao.obterTexto Sel.nomeTerceiro,
        Acao.aguardar 5, Acao.obterTexto Sel.nomeTerceiro,
        Acao.aguardar 5, Acao.obterTexto Sel.nomeTerceiro,
        Acao.aguardar 5, Acao.obterTexto Sel.nomeTerceiro]) := by
    simp [pollLoop, List.range', hnome]
  simp [processarRegistro, hcampos, h1, h2, h3, h4, h5, hpoll, hnome 10,
    resNaoEncontrado]

/-- Witness for C7: with `envNomeFalha` the complete record is marked
not found and the send-email click never happens. -/
theorem C7_witness :
    (processarRegistro cfgProd envNomeFalha registroCompleto).atualizacao =
      some ("I", msgNaoEncontrado 7) ∧
    Acao.click Sel.botaoEnviarEmail ∉
      (processarRegistro cfgProd envNomeFalha registroCompleto).acoes := by
  have h := C7_nome_nao_resolve cfgProd envNomeFalha registroCompleto true true true () ()
    rfl rfl rfl rfl rfl rfl (fun _ => rfl)
  exact ⟨h.2.1, h.2.2.2.2⟩

/-- C8: batch isolation.  If the `i`-th selected record's sequence ends
in the caught-exception path, then (a) no UPDATE was issued for it — its
persisted row keeps its prior status; (b) an ERROR log entry was
appended; (c) the loop still yields one result per selected record; (d)
every record's result is computed from that record and its own
environment alone (an earlier failure cannot change it); and (e) every
table row carrying that record's transfer number is unchanged after the
whole loop (assuming, as the schema guarantees, that no other selected
record shares the transfer number). -/
theorem C8_isolamento_por_registro (cfg : Config) (envs : Nat → AmbienteRegistro)
    (ps tab : List Registro) (i : Nat) (row : Registro)
    (hrow : ps[i]? = some row)
    (herr : (processarRegistro cfg (envs i) row).saida = Saida.erro)
    (hchaves : ∀ (j : Nat) (rj : Registro), ps[j]? = some rj →
      rj.nr_repasse = row.nr_repasse → j = i) :
    (processarRegistro cfg (envs i) row).atualizacao = none ∧
    (processarRegistro cfg (envs i) row).logs =
      [⟨"ERROR", msgErroRepasse row.nr_repasse⟩] ∧
    (loopEnvio cfg envs ps 0 tab).2.length = ps.length ∧
    (∀ (j : Nat) (rj : Registro), ps[j]? = some rj →
      (loopEnvio cfg envs ps 0 tab).2[j]? = some (processarRegistro cfg (envs j) rj)) ∧
    (∀ (m : Nat) (rr : Registro), tab[m]? = some rr →
      rr.nr_repasse = row.nr_repasse → (loopEnvio cfg envs ps 0 tab).1[m]? = some rr) := by
  have hchar := (processar_caracterizacao cfg (envs i) row).2.2.2.2 herr
  refine ⟨hchar.1, hchar.2, loopEnvio_length cfg envs ps 0 tab, ?_, ?_⟩
  · intro j rj hj
    simpa using loopEnvio_get cfg envs ps 0 tab j rj hj
  · intro m rr hm hk
    refine loopEnvio_preserva cfg envs row.nr_repasse ps 0 tab ?_ m rr hm hk
    intro j rj hj hkj
    have hji : j = i := hchaves j rj hj hkj
    subst hji
    have hrj : rj = row := by rw [hrow] at hj; exact (Option.some.inj hj).symm
    subst hrj
    simpa using hchar.1

/-- Environment assignment for the C8 witness: the first record's
Filtrar click raises an exception; later records run normally. -/
def envsExemplo : Nat → AmbienteRegistro :=
  fun j => if j = 0 then envErroClick else envOk

/-- Witness for C8: in a two-record batch where the first record's
sequence raises, the first record issues no UPDATE, both records are
still processed, and the first record's table row survives unchanged. -/
theorem C8_witness :
    (processarRegistro cfgProd (envsExemplo 0) registroCompleto).atualizacao = none ∧
    (loopEnvio cfgProd envsExemplo [registroCompleto, registroSemEmail] 0
      [registroCompleto]).2.length = 2 ∧
    (loopEnvio cfgProd envsExemplo [registroCompleto, registroSemEmail] 0
      [registroCompleto]).1[0]? = some registroCompleto := by
  have h := C8_isolamento_por_registro cfgProd envsExemplo
    [registroCompleto, registroSemEmail] [registroCompleto] 0 registroCompleto rfl rfl ?_
  · exact ⟨h.1, h.2.2.1, h.2.2.2.2 0 registroCompleto rfl rfl⟩
  · intro j rj hj hk
    cases j with
    | zero => rfl
    | succ j =>
        cases j with
        | zero =>
            simp at hj
            subst hj
            exact absurd hk (by decide)
        | succ j => simp at hj

/-- C9: teardown ownership.  A caller-supplied handle is never closed by
`finalizar`; a handle the instance created itself is closed exactly
once — and if initialization failed before a handle was created (the
browser is created before the DB connection), nothing is closed for it.
The equations cover all 16 combinations of supplied/created and
succeeded/failed initialization, including both partial-failure
scenarios. -/
theorem C9_posse_recursos (dbFornecido navFornecido navOk dbOk : Bool) :
    (finalizar (inicializar (initProcessamento dbFornecido navFornecido) navOk dbOk).1).1 =
      (if dbFornecido then 0 else if (navFornecido || navOk) && dbOk then 1 else 0) ∧
    (finalizar (inicializar (initProcessamento dbFornecido navFornecido) navOk dbOk).1).2 =
      (if navFornecido then 0 else if navOk then 1 else 0) := by
  cases dbFornecido <;> cases navFornecido <;> cases navOk <;> cases dbOk <;>
    exact ⟨rfl, rfl⟩

/-- C10: for a selector that never becomes present within the timeout,
`_encontrar_elemento` swallows the TimeoutException and returns the
falsy literal `False`, and `click_elemento` therefore performs no click
and returns `False` without raising — for both the JS and the normal
click branch, regardless of whether a real click would have raised. -/
theorem C10_click_timeout_sem_excecao (js clickLanca : Bool) :
    encontrar_elemento false = BuscaElemento.falso ∧
    click_elemento false js clickLanca = { retorno := some false, clicou := false } :=
  ⟨rfl, rfl⟩

end RepasseMedico
